import Mathlib

/-!
Shallow embedding of the deterministic computation layer of
`src/app.py` (NutriTrack AI): the BMI calculator, the daily calorie
requirement calculator, the water intake calculator, and the
session-scoped meal log. Real-valued Python arithmetic is modelled
over ℚ; fallible operations (dictionary lookups, precondition-guarded
handlers) return `Option` / `Except`.
-/

namespace NutriTrack

/-- BMI categories reported by the BMI tab (`src/app.py` lines 153-160). -/
inductive BMICategory
  | Underweight
  | Normal
  | Overweight
  | Obese
  deriving DecidableEq, Repr

/-- Sex selector of the calorie tab (`src/app.py` line 172). -/
inductive Gender
  | Male
  | Female
  deriving DecidableEq, Repr

/-- BMI value, from `bmi = weight_bmi / (height_bmi ** 2)` (`src/app.py` line 150). -/
def bmi (weight_bmi height_bmi : ℚ) : ℚ :=
  weight_bmi / (height_bmi ^ 2)

/-- Category branch chain of the BMI tab (`src/app.py` lines 153-160):
`if bmi < 18.5` Underweight, `elif 18.5 <= bmi < 24.9` Normal,
`elif 25 <= bmi < 29.9` Overweight, `else` Obese. -/
def bmiCategory (b : ℚ) : BMICategory :=
  if b < 18.5 then BMICategory.Underweight
  else if 18.5 ≤ b ∧ b < 24.9 then BMICategory.Normal
  else if 25 ≤ b ∧ b < 29.9 then BMICategory.Overweight
  else BMICategory.Obese

/-- Mifflin-St Jeor BMR, from `src/app.py` line 182:
`bmr = 10 * weight_calorie + 6.25 * (height_calorie * 100) - 5 * age
+ (5 if gender == "Male" else -161)`. -/
def bmr (weight_calorie height_calorie : ℚ) (age : ℤ) (gender : Gender) : ℚ :=
  10 * weight_calorie + 6.25 * (height_calorie * 100) - 5 * (age : ℚ)
    + (if gender = Gender.Male then 5 else -161)

/-- Calorie activity-multiplier dictionary (`src/app.py` lines 183-188). -/
def activity_multipliers : List (String × ℚ) :=
  [("Sedentary (little or no exercise)", 1.2),
   ("Lightly active (light exercise/sports 1-3 days/week)", 1.375),
   ("Moderately active (moderate exercise/sports 3-5 days/week)", 1.55),
   ("Very active (hard exercise/sports 6-7 days/week)", 1.725)]

/-- Daily calorie need, from `calorie_needs = bmr * activity_multipliers[activity_level]`
(`src/app.py` line 189); a key miss in the Python dict raises KeyError,
modelled by `none`. -/
def calorie_needs (age : ℤ) (weight_calorie height_calorie : ℚ) (gender : Gender)
    (activity_level : String) : Option ℚ :=
  (activity_multipliers.lookup activity_level).map
    (fun m => bmr weight_calorie height_calorie age gender * m)

/-- Errors surfaced by the calorie tab handler; `ValidationError` is the
`st.error("Please provide valid inputs.")` branch (`src/app.py` line 192). -/
inductive CalcError
  | ValidationError
  deriving DecidableEq, Repr

/-- Calorie button handler (`src/app.py` lines 180-192): the computation runs
only under `if age > 0 and weight_calorie > 0 and height_calorie > 0`,
otherwise a validation error is reported and nothing is computed. -/
def calorie_req_handler (age : ℤ) (weight_calorie height_calorie : ℚ) (gender : Gender)
    (activity_level : String) : Except CalcError (Option ℚ) :=
  if 0 < age ∧ 0 < weight_calorie ∧ 0 < height_calorie then
    Except.ok (calorie_needs age weight_calorie height_calorie gender activity_level)
  else
    Except.error CalcError.ValidationError

/-- Water activity-multiplier dictionary in mL per kg per day
(`src/app.py` lines 208-213). -/
def activity_multiplier : List (String × ℚ) :=
  [("Sedentary (little or no exercise)", 30),
   ("Lightly active (light exercise/sports 1-3 days/week)", 35),
   ("Moderately active (moderate exercise/sports 3-5 days/week)", 40),
   ("Very active (hard exercise/sports 6-7 days/week)", 45)]

/-- Water intake in liters, from
`water_needs = weight_water * activity_multiplier[activity_level_water] / 1000`
(`src/app.py` line 214); a dict key miss is modelled by `none`. -/
def water_needs (weight_water : ℚ) (activity_level_water : String) : Option ℚ :=
  (activity_multiplier.lookup activity_level_water).map
    (fun m => weight_water * m / 1000)

/-- One meal-log record (`src/app.py` lines 132-135). -/
structure MealRecord where
  meal_name : String
  response : String
  deriving DecidableEq, Repr

/-- Record built on a successful analysis (`src/app.py` lines 132-135):
`meal_name` is `input_text or "Unnamed Meal"` (Python's `or` takes the
default exactly when `input_text` is empty) and `response` is the model's
returned text. -/
def mkMealRecord (input_text response : String) : MealRecord :=
  { meal_name := if input_text = "" then "Unnamed Meal" else input_text,
    response := response }

/-- `st.session_state["meal_logs"].append(...)` (`src/app.py` line 132):
adds the record at the end of the list. -/
def appendMeal (meal_logs : List MealRecord) (r : MealRecord) : List MealRecord :=
  meal_logs ++ [r]

/-- Reading the whole meal log (the Meal History tab iterates the list in
insertion order). -/
def readAll (meal_logs : List MealRecord) : List MealRecord :=
  meal_logs

/-- Outcome displayed by the Analyze Image handler. -/
inductive AnalysisOutcome
  | success (text : String)
  | failure (msg : String)
  deriving DecidableEq, Repr

/-- Analyze Image button handler (`src/app.py` lines 122-138), given the
outcome of the external vision-model call: on `ok response` it displays the
text and appends the record; on an exception `e` it displays
`f"Error: {e}"` and the log is untouched. -/
def calorie_button_handler (visionResult : Except String String) (input_text : String)
    (meal_logs : List MealRecord) : List MealRecord × AnalysisOutcome :=
  match visionResult with
  | Except.ok response =>
      (appendMeal meal_logs (mkMealRecord input_text response),
       AnalysisOutcome.success response)
  | Except.error e =>
      (meal_logs, AnalysisOutcome.failure ("Error: " ++ e))

/-- C1: for every weightKg > 0 and heightM > 0 the BMI computation is
deterministic and returns weightKg / heightM²; equivalently the returned
value times heightM² recovers the weight. -/
theorem bmi_formula (weightKg heightM : ℚ) (hw : 0 < weightKg) (hh : 0 < heightM) :
    bmi weightKg heightM = weightKg / heightM ^ 2 ∧
    bmi weightKg heightM * heightM ^ 2 = weightKg := by
  constructor
  · rfl
  · have h2 : heightM ^ 2 ≠ 0 := pow_ne_zero 2 (ne_of_gt hh)
    simp [bmi, div_mul_cancel₀, h2]

/-- Witness for C1 at weight 18, height 2: BMI is 4.5. -/
theorem bmi_formula_witness :
    bmi 18 2 = 18 / 2 ^ 2 ∧ bmi 18 2 * 2 ^ 2 = 18 :=
  bmi_formula 18 2 (by norm_num) (by norm_num)

lemma bmiCategory_lt (b : ℚ) (h : b < 18.5) :
    bmiCategory b = BMICategory.Underweight := by
  simp [bmiCategory, h]

lemma bmiCategory_mid (b : ℚ) (h1 : 18.5 ≤ b) (h2 : b < 24.9) :
    bmiCategory b = BMICategory.Normal := by
  unfold bmiCategory
  rw [if_neg (not_lt.mpr h1), if_pos ⟨h1, h2⟩]

lemma bmiCategory_high (b : ℚ) (h1 : 25 ≤ b) (h2 : b < 29.9) :
    bmiCategory b = BMICategory.Overweight := by
  unfold bmiCategory
  rw [if_neg (by push_neg; linarith), if_neg (by push_neg; intro _; linarith),
    if_pos ⟨h1, h2⟩]

lemma bmiCategory_top (b : ℚ) (h : 24.9 ≤ b) (h2 : ¬(25 ≤ b ∧ b < 29.9)) :
    bmiCategory b = BMICategory.Obese := by
  unfold bmiCategory
  rw [if_neg (by push_neg; linarith), if_neg (by push_neg; intro _; linarith),
    if_neg h2]

/-- C2: for every weightKg > 0 and heightM > 0 the BMI category follows the
half-open-interval table (lower bound inclusive): [0, 18.5) Underweight,
[18.5, 24.9) Normal, [25, 29.9) Overweight, [29.9, ∞) Obese; in particular
BMI values 18.49999, 18.5, 24.89999, 25.0, 29.89999 and 29.9 classify as
Underweight, Normal, Normal, Overweight, Overweight and Obese. -/
theorem bmiCategory_table (weightKg heightM : ℚ) (hw : 0 < weightKg) (hh : 0 < heightM) :
    (0 ≤ bmi weightKg heightM ∧ bmi weightKg heightM < 18.5 →
      bmiCategory (bmi weightKg heightM) = BMICategory.Underweight) ∧
    (18.5 ≤ bmi weightKg heightM ∧ bmi weightKg heightM < 24.9 →
      bmiCategory (bmi weightKg heightM) = BMICategory.Normal) ∧
    (25 ≤ bmi weightKg heightM ∧ bmi weightKg heightM < 29.9 →
      bmiCategory (bmi weightKg heightM) = BMICategory.Overweight) ∧
    (29.9 ≤ bmi weightKg heightM →
      bmiCategory (bmi weightKg heightM) = BMICategory.Obese) ∧
    bmiCategory 18.49999 = BMICategory.Underweight ∧
    bmiCategory 18.5 = BMICategory.Normal ∧
    bmiCategory 24.89999 = BMICategory.Normal ∧
    bmiCategory 25 = BMICategory.Overweight ∧
    bmiCategory 29.89999 = BMICategory.Overweight ∧
    bmiCategory 29.9 = BMICategory.Obese := by
  refine ⟨fun h => bmiCategory_lt _ h.2,
    fun h => bmiCategory_mid _ h.1 h.2,
    fun h => bmiCategory_high _ h.1 h.2,
    fun h => bmiCategory_top _ (by linarith) (by push_neg; intro _; linarith),
    bmiCategory_lt _ (by norm_num),
    bmiCategory_mid _ (by norm_num) (by norm_num),
    bmiCategory_mid _ (by norm_num) (by norm_num),
    bmiCategory_high _ (by norm_num) (by norm_num),
    bmiCategory_high _ (by norm_num) (by norm_num),
    bmiCategory_top _ (by norm_num) (by norm_num)⟩

/-- Witness for C2 at weight 70, height 2 (BMI 17.5, in the Underweight band). -/
theorem bmiCategory_table_witness :
    (0 ≤ bmi 70 2 ∧ bmi 70 2 < 18.5 →
      bmiCategory (bmi 70 2) = BMICategory.Underweight) ∧
    (18.5 ≤ bmi 70 2 ∧ bmi 70 2 < 24.9 →
      bmiCategory (bmi 70 2) = BMICategory.Normal) ∧
    (25 ≤ bmi 70 2 ∧ bmi 70 2 < 29.9 →
      bmiCategory (bmi 70 2) = BMICategory.Overweight) ∧
    (29.9 ≤ bmi 70 2 → bmiCategory (bmi 70 2) = BMICategory.Obese) ∧
    bmiCategory 18.49999 = BMICategory.Underweight ∧
    bmiCategory 18.5 = BMICategory.Normal ∧
    bmiCategory 24.89999 = BMICategory.Normal ∧
    bmiCategory 25 = BMICategory.Overweight ∧
    bmiCategory 29.89999 = BMICategory.Overweight ∧
    bmiCategory 29.9 = BMICategory.Obese :=
  bmiCategory_table 70 2 (by norm_num) (by norm_num)

/-- C3 counterexample: the claim "no weightKg > 0, heightM > 0 gives a BMI in
[24.9, 25)" is false: weight 24.95 kg at height 1 m has BMI 24.95, inside the
gap. -/
theorem bmi_gap_unreachable_counterexample :
    ¬ (∀ weightKg heightM : ℚ, 0 < weightKg → 0 < heightM →
        ¬ (24.9 ≤ bmi weightKg heightM ∧ bmi weightKg heightM < 25)) := by
  intro h
  exact h 24.95 1 (by norm_num) (by norm_num) (by constructor <;> norm_num [bmi])

/-- C3 amended: the gap [24.9, 25) between the Normal and Overweight boundary
literals is reachable: there exist weightKg > 0 and heightM > 0 whose computed
BMI lies in [24.9, 25). -/
theorem bmi_gap_reachable :
    ∃ weightKg heightM : ℚ, 0 < weightKg ∧ 0 < heightM ∧
      24.9 ≤ bmi weightKg heightM ∧ bmi weightKg heightM < 25 :=
  ⟨24.95, 1, by norm_num, by norm_num, by norm_num [bmi], by norm_num [bmi]⟩

/-- C10: whenever the computed BMI lies in the gap [24.9, 25), the final else
branch classifies it as Obese. -/
theorem bmi_gap_classified_obese (weightKg heightM : ℚ)
    (hw : 0 < weightKg) (hh : 0 < heightM)
    (h1 : 24.9 ≤ bmi weightKg heightM) (h2 : bmi weightKg heightM < 25) :
    bmiCategory (bmi weightKg heightM) = BMICategory.Obese :=
  bmiCategory_top _ h1 (by push_neg; intro h; linarith)

/-- Witness for C10 at weight 24.95, height 1: BMI 24.95 is in the gap and is
classified Obese. -/
theorem bmi_gap_classified_obese_witness :
    bmiCategory (bmi 24.95 1) = BMICategory.Obese :=
  bmi_gap_classified_obese 24.95 1 (by norm_num) (by norm_num)
    (by norm_num [bmi]) (by norm_num [bmi])

lemma lookup_cal_sedentary :
    activity_multipliers.lookup "Sedentary (little or no exercise)" = some 1.2 := by
  rfl

lemma lookup_cal_light :
    activity_multipliers.lookup "Lightly active (light exercise/sports 1-3 days/week)"
      = some 1.375 := by
  rfl

lemma lookup_cal_moderate :
    activity_multipliers.lookup "Moderately active (moderate exercise/sports 3-5 days/week)"
      = some 1.55 := by
  rfl

lemma lookup_cal_very :
    activity_multipliers.lookup "Very active (hard exercise/sports 6-7 days/week)"
      = some 1.725 := by
  rfl

/-- C4: for every ageYears > 0, weightKg > 0, heightM > 0 and sex, the daily
calorie need on each of the four fixed labels is exactly
(10·weightKg + 6.25·(heightM·100) − 5·ageYears + (5 if Male else −161)) times
the label's multiplier (1.2 / 1.375 / 1.55 / 1.725), unrounded; in particular
age 25, weight 70, height 1.75, Male, Sedentary gives 2008.5 kcal. -/
theorem calorie_needs_formula (age : ℤ) (weightKg heightM : ℚ) (gender : Gender)
    (ha : 0 < age) (hw : 0 < weightKg) (hh : 0 < heightM) :
    calorie_needs age weightKg heightM gender "Sedentary (little or no exercise)"
      = some ((10 * weightKg + 6.25 * (heightM * 100) - 5 * (age : ℚ)
          + (if gender = Gender.Male then 5 else -161)) * 1.2) ∧
    calorie_needs age weightKg heightM gender
        "Lightly active (light exercise/sports 1-3 days/week)"
      = some ((10 * weightKg + 6.25 * (heightM * 100) - 5 * (age : ℚ)
          + (if gender = Gender.Male then 5 else -161)) * 1.375) ∧
    calorie_needs age weightKg heightM gender
        "Moderately active (moderate exercise/sports 3-5 days/week)"
      = some ((10 * weightKg + 6.25 * (heightM * 100) - 5 * (age : ℚ)
          + (if gender = Gender.Male then 5 else -161)) * 1.55) ∧
    calorie_needs age weightKg heightM gender
        "Very active (hard exercise/sports 6-7 days/week)"
      = some ((10 * weightKg + 6.25 * (heightM * 100) - 5 * (age : ℚ)
          + (if gender = Gender.Male then 5 else -161)) * 1.725) ∧
    calorie_needs 25 70 1.75 Gender.Male "Sedentary (little or no exercise)"
      = some 2008.5 := by
  refine ⟨?_, ?_, ?_, ?_, ?_⟩
  · rw [calorie_needs, lookup_cal_sedentary]; rfl
  · rw [calorie_needs, lookup_cal_light]; rfl
  · rw [calorie_needs, lookup_cal_moderate]; rfl
  · rw [calorie_needs, lookup_cal_very]; rfl
  · rw [calorie_needs, lookup_cal_sedentary]
    norm_num [bmr, Option.map]

/-- Witness for C4 at age 25, weight 70, height 1.75, Male. -/
theorem calorie_needs_formula_witness :
    calorie_needs 25 70 1.75 Gender.Male "Sedentary (little or no exercise)"
      = some ((10 * 70 + 6.25 * ((1.75 : ℚ) * 100) - 5 * ((25 : ℤ) : ℚ)
          + (if Gender.Male = Gender.Male then 5 else -161)) * 1.2) :=
  (calorie_needs_formula 25 70 1.75 Gender.Male (by norm_num) (by norm_num)
    (by norm_num)).1

lemma lookup_water_sedentary :
    activity_multiplier.lookup "Sedentary (little or no exercise)" = some 30 := by
  rfl

lemma lookup_water_light :
    activity_multiplier.lookup "Lightly active (light exercise/sports 1-3 days/week)"
      = some 35 := by
  rfl

lemma lookup_water_moderate :
    activity_multiplier.lookup "Moderately active (moderate exercise/sports 3-5 days/week)"
      = some 40 := by
  rfl

lemma lookup_water_very :
    activity_multiplier.lookup "Very active (hard exercise/sports 6-7 days/week)"
      = some 45 := by
  rfl

/-- C5: for every weightKg > 0 the water intake on each of the four fixed
labels is weightKg × multiplier / 1000 with the multipliers 30 / 35 / 40 / 45
mL per kg per day; in particular weight 70 with Moderately active gives 2.8
liters. -/
theorem water_needs_formula (weightKg : ℚ) (hw : 0 < weightKg) :
    water_needs weightKg "Sedentary (little or no exercise)"
      = some (weightKg * 30 / 1000) ∧
    water_needs weightKg "Lightly active (light exercise/sports 1-3 days/week)"
      = some (weightKg * 35 / 1000) ∧
    water_needs weightKg "Moderately active (moderate exercise/sports 3-5 days/week)"
      = some (weightKg * 40 / 1000) ∧
    water_needs weightKg "Very active (hard exercise/sports 6-7 days/week)"
      = some (weightKg * 45 / 1000) ∧
    water_needs 70 "Moderately active (moderate exercise/sports 3-5 days/week)"
      = some 2.8 := by
  refine ⟨?_, ?_, ?_, ?_, ?_⟩
  · rw [water_needs, lookup_water_sedentary]; rfl
  · rw [water_needs, lookup_water_light]; rfl
  · rw [water_needs, lookup_water_moderate]; rfl
  · rw [water_needs, lookup_water_very]; rfl
  · rw [water_needs, lookup_water_moderate]
    norm_num [Option.map]

/-- Witness for C5 at weight 70. -/
theorem water_needs_formula_witness :
    water_needs 70 "Moderately active (moderate exercise/sports 3-5 days/week)"
      = some ((70 : ℚ) * 40 / 1000) :=
  (water_needs_formula 70 (by norm_num)).2.2.1

/-- C6: if any precondition of the calorie handler is violated (age ≤ 0 or
weight ≤ 0 or height ≤ 0), the handler fails with ValidationError and returns
no numeric result. -/
theorem calorie_req_handler_validation (age : ℤ) (weightKg heightM : ℚ)
    (gender : Gender) (activity_level : String)
    (h : age ≤ 0 ∨ weightKg ≤ 0 ∨ heightM ≤ 0) :
    calorie_req_handler age weightKg heightM gender activity_level
      = Except.error CalcError.ValidationError := by
  rw [calorie_req_handler, if_neg]
  push_neg
  intro ha hw
  rcases h with h | h | h
  · exact absurd ha (not_lt.mpr h)
  · exact absurd hw (not_lt.mpr h)
  · exact h

/-- Witness for C6 at age 0: the handler reports ValidationError. -/
theorem calorie_req_handler_validation_witness :
    calorie_req_handler 0 70 1.75 Gender.Male "Sedentary (little or no exercise)"
      = Except.error CalcError.ValidationError :=
  calorie_req_handler_validation 0 70 1.75 Gender.Male
    "Sedentary (little or no exercise)" (Or.inl (by norm_num))

/-- C7: any activity label outside the four fixed ones misses both multiplier
tables: each lookup yields none (the Python dict raises a LookupError), never a
default multiplier and never a numeric result. -/
theorem lookup_unknown_label_fails (label : String)
    (h : label ∉ ["Sedentary (little or no exercise)",
      "Lightly active (light exercise/sports 1-3 days/week)",
      "Moderately active (moderate exercise/sports 3-5 days/week)",
      "Very active (hard exercise/sports 6-7 days/week)"]) :
    activity_multipliers.lookup label = none ∧
      activity_multiplier.lookup label = none := by
  simp only [List.mem_cons, List.not_mem_nil, or_false, not_or] at h
  obtain ⟨h1, h2, h3, h4⟩ := h
  have b1 : (label == "Sedentary (little or no exercise)") = false :=
    beq_eq_false_iff_ne.mpr h1
  have b2 : (label == "Lightly active (light exercise/sports 1-3 days/week)") = false :=
    beq_eq_false_iff_ne.mpr h2
  have b3 : (label == "Moderately active (moderate exercise/sports 3-5 days/week)") = false :=
    beq_eq_false_iff_ne.mpr h3
  have b4 : (label == "Very active (hard exercise/sports 6-7 days/week)") = false :=
    beq_eq_false_iff_ne.mpr h4
  constructor <;>
    simp [activity_multipliers, activity_multiplier, List.lookup, b1, b2, b3, b4]

/-- Witness for C7 at the unknown label "Active". -/
theorem lookup_unknown_label_fails_witness :
    activity_multipliers.lookup "Active" = none ∧
      activity_multiplier.lookup "Active" = none :=
  lookup_unknown_label_fails "Active" (by decide)

/-- C8: appending R1 then R2 to any meal-log state and reading all records
yields the prior contents followed by [R1, R2]; on a successful analysis the
appended record has meal name equal to the user text when it is non-empty and
the literal "Unnamed Meal" otherwise, and carries the returned analysis text. -/
theorem meal_log_append_order (meal_logs : List MealRecord) (r1 r2 : MealRecord)
    (input_text response : String) :
    readAll (appendMeal (appendMeal meal_logs r1) r2) = meal_logs ++ [r1, r2] ∧
    (calorie_button_handler (Except.ok response) input_text meal_logs).1
      = meal_logs ++ [mkMealRecord input_text response] ∧
    (mkMealRecord input_text response).meal_name
      = (if input_text = "" then "Unnamed Meal" else input_text) ∧
    (mkMealRecord input_text response).response = response := by
  refine ⟨?_, rfl, rfl, rfl⟩
  simp [readAll, appendMeal]

/-- C9: when the vision-model call fails with any error e, the handler reports
an error message with the underlying cause appended and leaves the meal log
unchanged: no record is appended and no other state is mutated. -/
theorem vision_failure_no_mutation (visionResult : Except String String)
    (input_text e : String) (meal_logs : List MealRecord)
    (h : visionResult = Except.error e) :
    calorie_button_handler visionResult input_text meal_logs
      = (meal_logs, AnalysisOutcome.failure ("Error: " ++ e)) := by
  rw [h]
  rfl

/-- Witness for C9 at the error "quota exceeded": the log [] stays []. -/
theorem vision_failure_no_mutation_witness :
    calorie_button_handler (Except.error "quota exceeded") "pasta" []
      = ([], AnalysisOutcome.failure ("Error: " ++ "quota exceeded")) :=
  vision_failure_no_mutation (Except.error "quota exceeded") "pasta"
    "quota exceeded" [] rfl

end NutriTrack
